import Mathlib

/-!
Verification development for the libsql client library (transaction-session
abstraction). The definitions below are a shallow embedding of `src/http.rs`
(cookie-backed session strategy over a stateless HTTP pipeline transport) and
`src/hrana.rs` (stream-backed session strategy). Network sends are modelled by
an explicit server function passed as a parameter; each operation additionally
returns the list of requests it sent, in order, so that theorems can speak
about what went on the wire.
-/

namespace LibsqlClient

/-- Error kinds of the library, mirroring `Error::ConnectionFailed` and
`Error::Misuse`. Messages keep the static part of the source's format strings. -/
inductive Err where
  | ConnectionFailed (msg : String)
  | Misuse (msg : String)
  deriving DecidableEq, Repr

/-- A statement: SQL text plus positional parameters (src `Statement`). -/
structure Statement where
  sql : String
  args : List String
  deriving DecidableEq, Repr

/-- Wire statement (`proto::Stmt`): built by `into_hrana` with `want_rows = true`
and every parameter bound in order. -/
structure ProtoStmt where
  sql : String
  args : List String
  want_rows : Bool
  deriving DecidableEq, Repr

/-- `Client::into_hrana`: convert a `Statement` into a wire statement. -/
def into_hrana (stmt : Statement) : ProtoStmt :=
  { sql := stmt.sql, args := stmt.args, want_rows := true }

/-- Raw result of one executed statement (`proto::StmtResult`). -/
structure StmtResult where
  cols : List String
  rows : List (List String)
  deriving DecidableEq, Repr

/-- Aggregated result of a batch (`proto::BatchResult`). -/
structure BatchResult where
  step_results : List (Option StmtResult)
  step_errors : List (Option String)
  deriving DecidableEq, Repr

/-- Decoded result set (`ResultSet`), produced from a `StmtResult`. -/
structure ResultSet where
  columns : List String
  rows : List (List String)
  deriving DecidableEq, Repr

/-- `ResultSet::from(StmtResult)`. -/
def ResultSet.ofStmtResult (r : StmtResult) : ResultSet :=
  { columns := r.cols, rows := r.rows }

/-- One step of a pipeline request (`pipeline::StreamRequest`): an execute step,
a batch step (list of steps, each an optional condition plus a statement), or a
close step. -/
inductive StreamRequest where
  | execute (stmt : ProtoStmt)
  | batchReq (steps : List (Option Unit × ProtoStmt))
  | close
  deriving DecidableEq, Repr

/-- Request envelope (`pipeline::ClientMsg`): optional baton plus request steps. -/
structure ClientMsg where
  baton : Option String
  requests : List StreamRequest
  deriving DecidableEq, Repr

/-- One successful step response (`pipeline::StreamResponse`). -/
inductive StreamResponse where
  | executeResp (result : StmtResult)
  | batchResp (result : BatchResult)
  | closeResp
  deriving DecidableEq, Repr

/-- One entry of the server's result list (`pipeline::Response`). -/
inductive Response where
  | ok (response : StreamResponse)
  | error (e : String)
  deriving DecidableEq, Repr

/-- Response envelope (`pipeline::ServerMsg`): optional baton, optional
redirect base URL, and the ordered result entries. -/
structure ServerMsg where
  baton : Option String
  base_url : Option String
  results : List Response
  deriving DecidableEq, Repr

/-- The transport's `send`: maps the target URL and the request envelope to a
server reply or a transport error. Auth is constant per client and omitted. -/
abbrev Server := String → ClientMsg → Except Err ServerMsg

/-- A request put on the wire: target URL and envelope. -/
abbrev SentReq := String × ClientMsg

/-- Session state of the cookie strategy (`Cookie`): server-generated baton and
the URL for further communication. `Default` is both fields absent. -/
structure Cookie where
  baton : Option String
  base_url : Option String
  deriving DecidableEq, Repr

/-- The cookie registry: transaction id to cookie, as a pointwise map
mirroring the `HashMap<u64, Cookie>` of the source. -/
abbrev Cookies := Nat → Option Cookie

/-- The empty registry. -/
def Cookies.empty : Cookies := fun _ => none

/-- `HashMap::insert`: overwrite the entry for `k`. -/
def Cookies.insert (c : Cookies) (k : Nat) (v : Cookie) : Cookies :=
  fun q => if q = k then some v else c q

/-- `HashMap::remove`: drop the entry for `k`. -/
def Cookies.remove (c : Cookies) (k : Nat) : Cookies :=
  fun q => if q = k then none else c q

/-- Characters `pat` match at the head of `s`. -/
def patIsAt : List Char → List Char → Bool
  | [], _ => true
  | _ :: _, [] => false
  | a :: as, b :: bs => a = b && patIsAt as bs

/-- Characters `pat` occur contiguously somewhere in `s`. -/
def charsHaveSub (pat : List Char) : List Char → Bool
  | [] => patIsAt pat []
  | b :: bs => patIsAt pat (b :: bs) || charsHaveSub pat bs

/-- Rust's `str::contains` for a literal pattern. -/
def strContains (s pat : String) : Bool := charsHaveSub pat.data s.data

/-- Client state of the cookie strategy that the session logic reads: the
query endpoint and the auth header (the registry is threaded explicitly). -/
structure Client where
  url_for_queries : String
  auth : String
  deriving DecidableEq, Repr

/-- `Client::new` of `src/http.rs`: prepend `https://` when the URL has no
protocol, then append `v2/pipeline` to the base URL (no separator inserted). -/
def Client.new (url token : String) : Client :=
  { url_for_queries :=
      (if strContains url "://" then url else "https://" ++ url) ++ "v2/pipeline",
    auth := "Bearer " ++ token }

/-- Cookie used by `execute_inner`: the stored cookie for `tx_id` (default when
absent) when `tx_id > 0`, the default cookie otherwise. -/
def exec_cookie (tx_id : Nat) (cookies : Cookies) : Cookie :=
  if 0 < tx_id then (cookies tx_id).getD { baton := none, base_url := none }
  else { baton := none, base_url := none }

/-- The request `execute_inner` sends: one execute step carrying the cookie's
baton, to the cookie's base URL when present, else the default endpoint. -/
def exec_request (cl : Client) (stmtIn : Statement) (tx_id : Nat) (cookies : Cookies) :
    SentReq :=
  ((exec_cookie tx_id cookies).base_url.getD cl.url_for_queries,
   { baton := (exec_cookie tx_id cookies).baton,
     requests := [StreamRequest.execute (into_hrana stmtIn)] })

/-- Shape handling of `execute_inner` after the baton bookkeeping: empty result
list and more-than-one entry are connection failures; the single entry must be
an execute response; a server error entry is surfaced as a connection failure. -/
def finish_results (results : List Response) : Except Err ResultSet :=
  match results with
  | [] => Except.error (Err.ConnectionFailed "Unexpected empty response from server")
  | [r] =>
    match r with
    | Response.ok (StreamResponse.executeResp er) => Except.ok (ResultSet.ofStmtResult er)
    | Response.ok _ =>
        Except.error (Err.ConnectionFailed "Unexpected response from server")
    | Response.error _ =>
        Except.error (Err.ConnectionFailed "Error from server")
  | _ :: _ :: _ =>
      Except.error (Err.ConnectionFailed "Unexpected multiple responses from server")

/-- `Client::execute_inner` of `src/http.rs`: look up the cookie, send one
execute step, then for a real transaction store the new baton and base URL
(a missing baton is a closed stream and fails), and finally decode the single
result entry. Returns the call's result, the updated registry, and the trace
of requests sent. -/
def execute_inner (cl : Client) (srv : Server) (stmtIn : Statement) (tx_id : Nat)
    (cookies : Cookies) : Except Err ResultSet × Cookies × List SentReq :=
  match srv (exec_request cl stmtIn tx_id cookies).1 (exec_request cl stmtIn tx_id cookies).2 with
  | Except.error e => (Except.error e, cookies, [exec_request cl stmtIn tx_id cookies])
  | Except.ok response =>
    if 0 < tx_id then
      match response.baton with
      | some b =>
          (finish_results response.results,
           Cookies.insert cookies tx_id { baton := some b, base_url := response.base_url },
           [exec_request cl stmtIn tx_id cookies])
      | none =>
          (Except.error (Err.ConnectionFailed "Stream closed: server returned empty baton"),
           cookies, [exec_request cl stmtIn tx_id cookies])
    else
      (finish_results response.results, cookies, [exec_request cl stmtIn tx_id cookies])

/-- `Client::execute` of `src/http.rs`: a plain execute is `execute_inner`
with transaction id 0. -/
def Client.execute (cl : Client) (srv : Server) (stmtIn : Statement)
    (cookies : Cookies) : Except Err ResultSet × Cookies × List SentReq :=
  execute_inner cl srv stmtIn 0 cookies

/-- The close request sent by `close_stream_for`: one close step carrying the
stored cookie's baton, to the stored base URL when present. -/
def close_request (cl : Client) (tx_id : Nat) (cookies : Cookies) : SentReq :=
  (((cookies tx_id).getD { baton := none, base_url := none }).base_url.getD cl.url_for_queries,
   { baton := ((cookies tx_id).getD { baton := none, base_url := none }).baton,
     requests := [StreamRequest.close] })

/-- `Client::close_stream_for` of `src/http.rs`: send a close step for the
transaction's cookie (the send's result is discarded with `.ok()`, so the
helper itself always succeeds), then remove the cookie from the registry. -/
def close_stream_for (cl : Client) (tx_id : Nat) (cookies : Cookies) :
    Except Err Unit × Cookies × List SentReq :=
  (Except.ok (), Cookies.remove cookies tx_id, [close_request cl tx_id cookies])

/-- `Client::commit_transaction` of `src/http.rs`: run `COMMIT` through
`execute_inner`; on its error return early; otherwise close the stream
best-effort and succeed. -/
def commit_transaction (cl : Client) (srv : Server) (tx_id : Nat) (cookies : Cookies) :
    Except Err Unit × Cookies × List SentReq :=
  match execute_inner cl srv { sql := "COMMIT", args := [] } tx_id cookies with
  | (Except.error e, c1, t1) => (Except.error e, c1, t1)
  | (Except.ok _, c1, t1) =>
      match close_stream_for cl tx_id c1 with
      | (_, c2, t2) => (Except.ok (), c2, t1 ++ t2)

/-- `Client::rollback_transaction` of `src/http.rs`: run `ROLLBACK` through
`execute_inner`; on its error return early; otherwise close the stream
best-effort and succeed. -/
def rollback_transaction (cl : Client) (srv : Server) (tx_id : Nat) (cookies : Cookies) :
    Except Err Unit × Cookies × List SentReq :=
  match execute_inner cl srv { sql := "ROLLBACK", args := [] } tx_id cookies with
  | (Except.error e, c1, t1) => (Except.error e, c1, t1)
  | (Except.ok _, c1, t1) =>
      match close_stream_for cl tx_id c1 with
      | (_, c2, t2) => (Except.ok (), c2, t1 ++ t2)

/-- The single request `raw_batch` sends: no baton, the encoded steps followed
by one close step, to the default endpoint. -/
def batch_request (cl : Client) (stmts : List Statement) : SentReq :=
  (cl.url_for_queries,
   { baton := none,
     requests := [StreamRequest.batchReq (stmts.map fun s => ((none : Option Unit), into_hrana s)),
                  StreamRequest.close] })

/-- Shape handling of `raw_batch` on the server's result list: an empty list
and more than two entries are rejected (with the `Misuse` kind in the source);
the first entry must be a batch response. -/
def batch_finish (results : List Response) : Except Err BatchResult :=
  match results with
  | [] => Except.error (Err.Misuse "Unexpected empty response from server")
  | r0 :: rest =>
    if (r0 :: rest).length > 2 then
      Except.error (Err.Misuse "Unexpected multiple responses from server")
    else
      match r0 with
      | Response.ok (StreamResponse.batchResp br) => Except.ok br
      | Response.ok _ => Except.error (Err.Misuse "Unexpected response from server")
      | Response.error _ => Except.error (Err.Misuse "Error from server")

/-- `Client::raw_batch` of `src/http.rs`: one round trip with the steps and a
close step, then decode the reply's result list. -/
def raw_batch (cl : Client) (srv : Server) (stmts : List Statement) :
    Except Err BatchResult × List SentReq :=
  match srv (batch_request cl stmts).1 (batch_request cl stmts).2 with
  | Except.error e => (Except.error e, [batch_request cl stmts])
  | Except.ok response => (batch_finish response.results, [batch_request cl stmts])

/-- Registry of the stream-backed strategy of `src/hrana.rs`
(`streams_for_transactions`): transaction id to stream handle, plus the
counter yielding the next fresh handle delivered by `open_stream`. -/
structure HranaState where
  streams : Nat → Option Nat
  nextId : Nat

/-- The stream transport collaborator of `src/hrana.rs`: whether the k-th
`open_stream` succeeds, and the result of executing a statement on a stream. -/
structure HranaEnv where
  openRes : Nat → Except Err Unit
  execRes : Nat → ProtoStmt → Except Err StmtResult

/-- `Client::drop_stream_for_transaction`: remove the stream for `tx`. -/
def drop_stream_for_transaction (tx : Nat) (st : HranaState) : HranaState :=
  { streams := fun t => if t = tx then none else st.streams t, nextId := st.nextId }

/-- `Client::stream_for_transaction`: return the existing stream for `tx`, or
open a fresh one and publish it under `tx` (the entry is vacant in this
sequential semantics, so the insert always happens). -/
def stream_for_transaction (env : HranaEnv) (tx : Nat) (st : HranaState) :
    Except Err (Nat × HranaState) :=
  match st.streams tx with
  | some s => Except.ok (s, st)
  | none =>
    match env.openRes st.nextId with
    | Except.error e => Except.error e
    | Except.ok _ =>
        Except.ok (st.nextId,
          { streams := fun t => if t = tx then some st.nextId else st.streams t,
            nextId := st.nextId + 1 })

/-- `Client::commit_transaction` of `src/hrana.rs`: resolve the stream, drop
the registry entry before executing, then send `COMMIT` on the stream and map
its result. -/
def hrana_commit_transaction (env : HranaEnv) (tx : Nat) (st : HranaState) :
    Except Err Unit × HranaState :=
  match stream_for_transaction env tx st with
  | Except.error e => (Except.error e, st)
  | Except.ok (s, st1) =>
      ((env.execRes s (into_hrana { sql := "COMMIT", args := [] })).map fun _ => (),
       drop_stream_for_transaction tx st1)

/-- `Client::rollback_transaction` of `src/hrana.rs`: resolve the stream, drop
the registry entry before executing, then send `ROLLBACK` on the stream and
map its result. -/
def hrana_rollback_transaction (env : HranaEnv) (tx : Nat) (st : HranaState) :
    Except Err Unit × HranaState :=
  match stream_for_transaction env tx st with
  | Except.error e => (Except.error e, st)
  | Except.ok (s, st1) =>
      ((env.execRes s (into_hrana { sql := "ROLLBACK", args := [] })).map fun _ => (),
       drop_stream_for_transaction tx st1)

/-- An `Except` value is a success. -/
def exceptOk {α : Type} : Except Err α → Bool
  | Except.ok _ => true
  | Except.error _ => false

/-- An `Except` value is an error of the `ConnectionFailed` kind. -/
def errIsConnectionFailed {α : Type} : Except Err α → Bool
  | Except.error (Err.ConnectionFailed _) => true
  | _ => false

/-- A concrete client used for concrete evaluations. -/
def clFix : Client := Client.new "http://example.com/" "tok"

/-- A registry holding a session for transaction id 7. -/
def cookiesFix : Cookies :=
  Cookies.insert Cookies.empty 7 { baton := some "Z", base_url := none }

/-- A server whose reply carries a baton but reports a statement error. -/
def srvErrResult : Server := fun _ _ =>
  Except.ok { baton := some "A", base_url := none, results := [Response.error "SQL error"] }

/-- A server whose reply carries a baton but an empty result list. -/
def srvBadShape : Server := fun _ _ =>
  Except.ok { baton := some "X", base_url := none, results := [] }

/-- A server whose reply carries no baton but a well-formed result entry. -/
def srvNoBaton : Server := fun _ _ =>
  Except.ok { baton := none, base_url := none,
              results := [Response.ok (StreamResponse.executeResp { cols := [], rows := [] })] }

/-- A server whose reply has an empty result list and no baton. -/
def srvEmptyResults : Server := fun _ _ =>
  Except.ok { baton := none, base_url := none, results := [] }

/-- A transport that fails every send. -/
def srvFail : Server := fun _ _ => Except.error (Err.ConnectionFailed "connection lost")

/-- A server that always succeeds with a baton and one execute result. -/
def srvOkB : Server := fun _ _ =>
  Except.ok { baton := some "A", base_url := none,
              results := [Response.ok (StreamResponse.executeResp { cols := [], rows := [] })] }

/-- The well-formed execute result entry used by the scenario server. -/
def scenOkResult : Response :=
  Response.ok (StreamResponse.executeResp { cols := [], rows := [] })

/-- A server whose reply holds three result entries. -/
def srvThreeResults : Server := fun _ _ =>
  Except.ok { baton := none, base_url := none,
              results := [Response.error "a", Response.error "b", Response.error "c"] }

/-- A stream environment whose opens succeed and whose executions all fail. -/
def envFix : HranaEnv :=
  { openRes := fun _ => Except.ok (),
    execRes := fun _ _ => Except.error (Err.ConnectionFailed "stream failed") }

/-- A stream registry holding stream 3 for transaction id 7. -/
def stFix : HranaState :=
  { streams := fun t => if t = 7 then some 3 else none, nextId := 4 }

/-- The scenario server of C3: replies with token A to a request without a
baton, token B to a request carrying A, and token C to a request carrying B. -/
def scenSrv : Server := fun _ msg =>
  if msg.baton = none then
    Except.ok { baton := some "A", base_url := none, results := [scenOkResult] }
  else if msg.baton = some "A" then
    Except.ok { baton := some "B", base_url := none, results := [scenOkResult] }
  else if msg.baton = some "B" then
    Except.ok { baton := some "C", base_url := none, results := [scenOkResult] }
  else
    Except.ok { baton := some "D", base_url := none, results := [scenOkResult] }

end LibsqlClient

namespace LibsqlClient

/-- Every call of `execute_inner` sends exactly one request, the one built from
the stored cookie. -/
theorem exec_inner_trace (cl : Client) (srv : Server) (stmtIn : Statement)
    (t : Nat) (cookies : Cookies) :
    (execute_inner cl srv stmtIn t cookies).2.2 = [exec_request cl stmtIn t cookies] := by
  unfold execute_inner
  cases h : srv (exec_request cl stmtIn t cookies).1 (exec_request cl stmtIn t cookies).2 with
  | error e => rfl
  | ok response =>
      by_cases ht : 0 < t
      · simp only [ht, if_true]
        cases response.baton with
        | some b => rfl
        | none => rfl
      · simp only [ht, if_false]

/-- For a real transaction, `execute_inner` never erases an existing registry
entry: on every outcome the entry for `t` is still present afterwards. -/
theorem exec_inner_keeps_entry (cl : Client) (srv : Server) (stmtIn : Statement)
    (t : Nat) (cookies : Cookies) (ht : 0 < t) (hs : (cookies t).isSome = true) :
    (((execute_inner cl srv stmtIn t cookies).2.1) t).isSome = true := by
  unfold execute_inner
  cases h : srv (exec_request cl stmtIn t cookies).1 (exec_request cl stmtIn t cookies).2 with
  | error e => simpa using hs
  | ok response =>
      simp only [ht, if_true]
      cases response.baton with
      | some b => simp [Cookies.insert]
      | none => simpa using hs

/-- A result list whose length is not one is decoded to a connection failure. -/
theorem finish_results_len_ne_one :
    ∀ (results : List Response), results.length ≠ 1 →
      ∃ s, finish_results results = Except.error (Err.ConnectionFailed s)
  | [], _ => ⟨"Unexpected empty response from server", rfl⟩
  | [_], h => absurd rfl h
  | _ :: _ :: _, _ => ⟨"Unexpected multiple responses from server", rfl⟩

/-- C9: a plain (transaction id 0) execute reads no stored cookie (the request
uses no baton and the default endpoint) and persists nothing: the registry
after the call is the one before it, whatever the server did. -/
theorem plain_execute_registry_unchanged (cl : Client) (srv : Server)
    (stmtIn : Statement) (cookies : Cookies) :
    (Client.execute cl srv stmtIn cookies).2.1 = cookies ∧
    (Client.execute cl srv stmtIn cookies).2.2 =
      [(cl.url_for_queries,
        { baton := none, requests := [StreamRequest.execute (into_hrana stmtIn)] })] := by
  unfold Client.execute execute_inner
  cases h : srv (exec_request cl stmtIn 0 cookies).1 (exec_request cl stmtIn 0 cookies).2 with
  | error e => exact ⟨rfl, by simp [exec_request, exec_cookie]⟩
  | ok response => exact ⟨rfl, by simp [exec_request, exec_cookie]⟩

/-- C10: the query endpoint is the base URL with `v2/pipeline` appended and no
separator inserted, where the base URL is the given URL when it contains
`://` and `https://` prepended to it otherwise; in particular a base URL
without a trailing slash fuses its last segment with `v2`. -/
theorem url_for_queries_concat (url token : String) :
    (Client.new url token).url_for_queries =
      (if strContains url "://" then url else "https://" ++ url) ++ "v2/pipeline" ∧
    (Client.new "db.example.com" "tok").url_for_queries =
      "https://db.example.comv2/pipeline" ∧
    (Client.new "https://db.example.com/" "tok").url_for_queries =
      "https://db.example.com/v2/pipeline" := by
  refine ⟨rfl, ?_, ?_⟩ <;> decide

/-- C3: for a real transaction id the request sent by each statement carries as
its baton exactly the stored cookie's token (none on the first statement) and
goes to the stored redirect base URL when present, else the default endpoint;
a token `b` in the reply is stored back with the reply's base URL; and in the
concrete scenario where the server hands out tokens A then B for two statements
under id 7, the following COMMIT is sent with token B. -/
theorem cookie_baton_threading :
    (∀ (cl : Client) (srv : Server) (stmtIn : Statement) (t : Nat) (cookies : Cookies),
      0 < t →
      (execute_inner cl srv stmtIn t cookies).2.2 = [exec_request cl stmtIn t cookies] ∧
      (exec_request cl stmtIn t cookies).2.baton =
        ((cookies t).getD { baton := none, base_url := none }).baton ∧
      (exec_request cl stmtIn t cookies).1 =
        ((cookies t).getD { baton := none, base_url := none }).base_url.getD
          cl.url_for_queries ∧
      (cookies t = none → (exec_request cl stmtIn t cookies).2.baton = none)) ∧
    (∀ (cl : Client) (srv : Server) (stmtIn : Statement) (t : Nat) (cookies : Cookies)
        (m : ServerMsg) (b : String),
      0 < t →
      srv (exec_request cl stmtIn t cookies).1 (exec_request cl stmtIn t cookies).2 =
        Except.ok m →
      m.baton = some b →
      (execute_inner cl srv stmtIn t cookies).2.1 =
        Cookies.insert cookies t { baton := some b, base_url := m.base_url }) ∧
    ((commit_transaction clFix scenSrv 7
        ((execute_inner clFix scenSrv { sql := "UPDATE", args := [] } 7
            ((execute_inner clFix scenSrv { sql := "INSERT", args := [] } 7
                Cookies.empty).2.1)).2.1)).2.2.head?.map fun p => p.2.baton) =
      some (some "B") := by
  refine ⟨?_, ?_, ?_⟩
  · intro cl srv stmtIn t cookies ht
    refine ⟨exec_inner_trace cl srv stmtIn t cookies, ?_, ?_, ?_⟩
    · simp [exec_request, exec_cookie, ht]
    · simp [exec_request, exec_cookie, ht]
    · intro h; simp [exec_request, exec_cookie, ht, h]
  · intro cl srv stmtIn t cookies m b ht h hb
    unfold execute_inner
    rw [h]
    simp [ht, hb]
  · decide

/-- Witness for C3 at a concrete input: a first statement under id 7 with an
empty registry sends exactly one request and that request has no baton. -/
theorem cookie_baton_threading_witness :
    (execute_inner clFix srvOkB { sql := "INSERT", args := [] } 7 Cookies.empty).2.2 =
      [exec_request clFix { sql := "INSERT", args := [] } 7 Cookies.empty] ∧
    (exec_request clFix { sql := "INSERT", args := [] } 7 Cookies.empty).2.baton = none := by
  have h := cookie_baton_threading.1 clFix srvOkB { sql := "INSERT", args := [] } 7
    Cookies.empty (by decide)
  exact ⟨h.1, h.2.2.2 rfl⟩

/-- C4: for a real transaction id, a reply without a baton makes the call fail
with the connection-failure kind (stream closed), and the registry is exactly
what it was before the call, so a first statement leaves no entry. -/
theorem missing_baton_connection_failure (cl : Client) (srv : Server)
    (stmtIn : Statement) (t : Nat) (cookies : Cookies) (m : ServerMsg)
    (ht : 0 < t)
    (h : srv (exec_request cl stmtIn t cookies).1 (exec_request cl stmtIn t cookies).2 =
      Except.ok m)
    (hb : m.baton = none) :
    (execute_inner cl srv stmtIn t cookies).1 =
      Except.error (Err.ConnectionFailed "Stream closed: server returned empty baton") ∧
    (execute_inner cl srv stmtIn t cookies).2.1 = cookies ∧
    (cookies t = none → (execute_inner cl srv stmtIn t cookies).2.1 t = none) := by
  have hmain : execute_inner cl srv stmtIn t cookies =
      (Except.error (Err.ConnectionFailed "Stream closed: server returned empty baton"),
       cookies, [exec_request cl stmtIn t cookies]) := by
    unfold execute_inner
    rw [h]
    simp [ht, hb]
  refine ⟨by rw [hmain], by rw [hmain], ?_⟩
  intro h0
  rw [hmain]
  exact h0

/-- Witness for C4: a server replying without a baton to the first statement of
transaction 5 yields the stream-closed connection failure and no entry for 5. -/
theorem missing_baton_connection_failure_witness :
    (execute_inner clFix srvNoBaton { sql := "INSERT", args := [] } 5 Cookies.empty).1 =
      Except.error (Err.ConnectionFailed "Stream closed: server returned empty baton") ∧
    (execute_inner clFix srvNoBaton { sql := "INSERT", args := [] } 5 Cookies.empty).2.1 5 =
      none := by
  have h := missing_baton_connection_failure clFix srvNoBaton
    { sql := "INSERT", args := [] } 5 Cookies.empty
    { baton := none, base_url := none,
      results := [Response.ok (StreamResponse.executeResp { cols := [], rows := [] })] }
    (by decide) rfl rfl
  exact ⟨h.1, h.2.2 rfl⟩

/-- C8: any single-statement cookie-backed call whose reply does not hold
exactly one result entry fails with the connection-failure kind, so no result
set is returned. -/
theorem single_statement_shape_rejected (cl : Client) (srv : Server)
    (stmtIn : Statement) (t : Nat) (cookies : Cookies) (m : ServerMsg)
    (h : srv (exec_request cl stmtIn t cookies).1 (exec_request cl stmtIn t cookies).2 =
      Except.ok m)
    (hn : m.results.length ≠ 1) :
    ∃ s, (execute_inner cl srv stmtIn t cookies).1 =
      Except.error (Err.ConnectionFailed s) := by
  unfold execute_inner
  rw [h]
  by_cases ht : 0 < t
  · simp only [ht, if_true]
    cases hb : m.baton with
    | none => exact ⟨"Stream closed: server returned empty baton", by simp⟩
    | some b =>
        obtain ⟨s, hs⟩ := finish_results_len_ne_one m.results hn
        exact ⟨s, by simp [hs]⟩
  · simp only [ht, if_false]
    obtain ⟨s, hs⟩ := finish_results_len_ne_one m.results hn
    exact ⟨s, by simp [hs]⟩

/-- Witness for C8: a reply with an empty result list to a plain execute is
rejected with a connection failure. -/
theorem single_statement_shape_rejected_witness :
    ∃ s, (execute_inner clFix srvEmptyResults { sql := "SELECT 1", args := [] } 0
      Cookies.empty).1 = Except.error (Err.ConnectionFailed s) :=
  single_statement_shape_rejected clFix srvEmptyResults { sql := "SELECT 1", args := [] } 0
    Cookies.empty { baton := none, base_url := none, results := [] } rfl (by decide)

/-- A successful cookie-backed commit removes the transaction's entry. -/
theorem commit_ok_removes (cl : Client) (srv : Server) (t : Nat) (cookies : Cookies) :
    exceptOk (commit_transaction cl srv t cookies).1 = true →
    (commit_transaction cl srv t cookies).2.1 t = none := by
  rcases hE : execute_inner cl srv { sql := "COMMIT", args := [] } t cookies with ⟨r, c1, t1⟩
  cases r with
  | error e =>
      unfold commit_transaction
      rw [hE]
      intro habs
      simp [exceptOk] at habs
  | ok v =>
      unfold commit_transaction
      rw [hE]
      intro _
      simp [close_stream_for, Cookies.remove]

/-- A failing cookie-backed commit keeps the transaction's entry present. -/
theorem commit_err_keeps (cl : Client) (srv : Server) (t : Nat) (cookies : Cookies)
    (ht : 0 < t) (hs : (cookies t).isSome = true) :
    exceptOk (commit_transaction cl srv t cookies).1 = false →
    ((commit_transaction cl srv t cookies).2.1 t).isSome = true := by
  have hkeep := exec_inner_keeps_entry cl srv { sql := "COMMIT", args := [] } t cookies ht hs
  rcases hE : execute_inner cl srv { sql := "COMMIT", args := [] } t cookies with ⟨r, c1, t1⟩
  rw [hE] at hkeep
  cases r with
  | error e =>
      unfold commit_transaction
      rw [hE]
      intro _
      simpa using hkeep
  | ok v =>
      unfold commit_transaction
      rw [hE]
      intro habs
      simp [exceptOk, close_stream_for] at habs

/-- A successful cookie-backed rollback removes the transaction's entry. -/
theorem rollback_ok_removes (cl : Client) (srv : Server) (t : Nat) (cookies : Cookies) :
    exceptOk (rollback_transaction cl srv t cookies).1 = true →
    (rollback_transaction cl srv t cookies).2.1 t = none := by
  rcases hE : execute_inner cl srv { sql := "ROLLBACK", args := [] } t cookies with ⟨r, c1, t1⟩
  cases r with
  | error e =>
      unfold rollback_transaction
      rw [hE]
      intro habs
      simp [exceptOk] at habs
  | ok v =>
      unfold rollback_transaction
      rw [hE]
      intro _
      simp [close_stream_for, Cookies.remove]

/-- A failing cookie-backed rollback keeps the transaction's entry present. -/
theorem rollback_err_keeps (cl : Client) (srv : Server) (t : Nat) (cookies : Cookies)
    (ht : 0 < t) (hs : (cookies t).isSome = true) :
    exceptOk (rollback_transaction cl srv t cookies).1 = false →
    ((rollback_transaction cl srv t cookies).2.1 t).isSome = true := by
  have hkeep := exec_inner_keeps_entry cl srv { sql := "ROLLBACK", args := [] } t cookies ht hs
  rcases hE : execute_inner cl srv { sql := "ROLLBACK", args := [] } t cookies with ⟨r, c1, t1⟩
  rw [hE] at hkeep
  cases r with
  | error e =>
      unfold rollback_transaction
      rw [hE]
      intro _
      simpa using hkeep
  | ok v =>
      unfold rollback_transaction
      rw [hE]
      intro habs
      simp [exceptOk, close_stream_for] at habs

/-- C1 counterexample: transaction 7 has a session, the server reports an error
for the COMMIT statement, and after commit_transaction the registry still holds
an entry for 7 — the claimed unconditional removal does not happen in the
cookie-backed strategy. -/
theorem commit_error_keeps_cookie_cex :
    exceptOk (commit_transaction clFix srvErrResult 7 cookiesFix).1 = false ∧
    ((commit_transaction clFix srvErrResult 7 cookiesFix).2.1 7).isSome = true := by
  decide

/-- C1 amended: in the stream-backed strategy commit and rollback remove the
session regardless of the outcome of the COMMIT/ROLLBACK round trip; in the
cookie-backed strategy the entry is removed when the round trip succeeds, but
when it returns an error the entry is still present afterwards. -/
theorem commit_rollback_always_remove_amended :
    (∀ (env : HranaEnv) (tx : Nat) (st : HranaState) (s : Nat),
      st.streams tx = some s →
      (hrana_commit_transaction env tx st).2.streams tx = none ∧
      (hrana_rollback_transaction env tx st).2.streams tx = none) ∧
    (∀ (cl : Client) (srv : Server) (t : Nat) (cookies : Cookies),
      (exceptOk (commit_transaction cl srv t cookies).1 = true →
        (commit_transaction cl srv t cookies).2.1 t = none) ∧
      (0 < t → (cookies t).isSome = true →
        exceptOk (commit_transaction cl srv t cookies).1 = false →
        ((commit_transaction cl srv t cookies).2.1 t).isSome = true) ∧
      (exceptOk (rollback_transaction cl srv t cookies).1 = true →
        (rollback_transaction cl srv t cookies).2.1 t = none) ∧
      (0 < t → (cookies t).isSome = true →
        exceptOk (rollback_transaction cl srv t cookies).1 = false →
        ((rollback_transaction cl srv t cookies).2.1 t).isSome = true)) := by
  constructor
  · intro env tx st s h
    constructor <;>
      simp [hrana_commit_transaction, hrana_rollback_transaction, stream_for_transaction, h,
            drop_stream_for_transaction]
  · intro cl srv t cookies
    exact ⟨commit_ok_removes cl srv t cookies,
           fun ht hs => commit_err_keeps cl srv t cookies ht hs,
           rollback_ok_removes cl srv t cookies,
           fun ht hs => rollback_err_keeps cl srv t cookies ht hs⟩

/-- Witness for C1 amended: a stream-backed commit whose execution fails still
removes the entry for 7, and a successful cookie-backed commit removes it. -/
theorem commit_rollback_always_remove_witness :
    (hrana_commit_transaction envFix 7 stFix).2.streams 7 = none ∧
    (commit_transaction clFix srvOkB 7 cookiesFix).2.1 7 = none := by
  refine ⟨(commit_rollback_always_remove_amended.1 envFix 7 stFix 3 (by decide)).1, ?_⟩
  exact (commit_rollback_always_remove_amended.2 clFix srvOkB 7 cookiesFix).1 (by decide)

/-- C2 counterexample: the first statement of transaction 3 gets a reply with a
baton but an empty result list; the call fails, yet the registry now holds an
entry for 3 — the half-created session is not rolled back. -/
theorem session_creation_failure_cex :
    exceptOk (execute_inner clFix srvBadShape { sql := "INSERT", args := [] } 3
      Cookies.empty).1 = false ∧
    ((execute_inner clFix srvBadShape { sql := "INSERT", args := [] } 3
      Cookies.empty).2.1 3).isSome = true := by
  decide

/-- C2 amended: when the send itself fails, or when the reply carries no baton,
the registry is exactly what it was before (no entry is left for a fresh id);
but when the reply carries a baton the cookie is stored before the result-shape
check, so a call failing on a malformed shape leaves the new entry in place. -/
theorem session_creation_failure_amended :
    (∀ (cl : Client) (srv : Server) (stmtIn : Statement) (t : Nat) (cookies : Cookies)
        (e : Err),
      srv (exec_request cl stmtIn t cookies).1 (exec_request cl stmtIn t cookies).2 =
        Except.error e →
      execute_inner cl srv stmtIn t cookies =
        (Except.error e, cookies, [exec_request cl stmtIn t cookies])) ∧
    (∀ (cl : Client) (srv : Server) (stmtIn : Statement) (t : Nat) (cookies : Cookies)
        (m : ServerMsg),
      0 < t →
      srv (exec_request cl stmtIn t cookies).1 (exec_request cl stmtIn t cookies).2 =
        Except.ok m →
      m.baton = none →
      (execute_inner cl srv stmtIn t cookies).2.1 = cookies ∧
      exceptOk (execute_inner cl srv stmtIn t cookies).1 = false) ∧
    (∀ (cl : Client) (srv : Server) (stmtIn : Statement) (t : Nat) (cookies : Cookies)
        (m : ServerMsg) (b : String),
      0 < t →
      srv (exec_request cl stmtIn t cookies).1 (exec_request cl stmtIn t cookies).2 =
        Except.ok m →
      m.baton = some b →
      (execute_inner cl srv stmtIn t cookies).2.1 t =
        some { baton := some b, base_url := m.base_url }) := by
  refine ⟨?_, ?_, ?_⟩
  · intro cl srv stmtIn t cookies e h
    unfold execute_inner
    rw [h]
  · intro cl srv stmtIn t cookies m ht h hb
    unfold execute_inner
    rw [h]
    simp [ht, hb, exceptOk]
  · intro cl srv stmtIn t cookies m b ht h hb
    unfold execute_inner
    rw [h]
    simp [ht, hb, Cookies.insert]

/-- Witness for C2 amended: a transport failure on the first statement of
transaction 3 returns the error and the untouched registry. -/
theorem session_creation_failure_witness :
    execute_inner clFix srvFail { sql := "INSERT", args := [] } 3 Cookies.empty =
      (Except.error (Err.ConnectionFailed "connection lost"), Cookies.empty,
       [exec_request clFix { sql := "INSERT", args := [] } 3 Cookies.empty]) :=
  session_creation_failure_amended.1 clFix srvFail { sql := "INSERT", args := [] } 3
    Cookies.empty (Err.ConnectionFailed "connection lost") rfl

/-- C5 counterexample: rolling back transaction 5, which was never used, sends
one request and returns an error when the server's reply carries no baton — it
is neither a no-op nor error-free. -/
theorem rollback_unused_id_cex :
    exceptOk (rollback_transaction clFix srvNoBaton 5 Cookies.empty).1 = false ∧
    (rollback_transaction clFix srvNoBaton 5 Cookies.empty).2.2.length = 1 := by
  decide

/-- C5 amended: rollback of a never-used id is not a no-op: both strategies
create a fresh session and perform a ROLLBACK round trip (with no baton, to the
default endpoint, in the cookie-backed strategy), and the round trip's failure
propagates to the caller; only the registry remove of a nonexistent id is a
no-op. -/
theorem rollback_unused_id_amended :
    (∀ (cl : Client) (srv : Server) (t : Nat) (cookies : Cookies),
      0 < t → cookies t = none →
      (rollback_transaction cl srv t cookies).2.2.head? =
        some (cl.url_for_queries,
          { baton := none,
            requests := [StreamRequest.execute (into_hrana { sql := "ROLLBACK", args := [] })] })) ∧
    (∀ (cl : Client) (srv : Server) (t : Nat) (cookies : Cookies) (m : ServerMsg),
      0 < t →
      srv (exec_request cl { sql := "ROLLBACK", args := [] } t cookies).1
          (exec_request cl { sql := "ROLLBACK", args := [] } t cookies).2 = Except.ok m →
      m.baton = none →
      exceptOk (rollback_transaction cl srv t cookies).1 = false) ∧
    (∀ (env : HranaEnv) (tx : Nat) (st : HranaState) (e : Err),
      st.streams tx = none →
      env.openRes st.nextId = Except.ok () →
      env.execRes st.nextId (into_hrana { sql := "ROLLBACK", args := [] }) = Except.error e →
      (hrana_rollback_transaction env tx st).1 = Except.error e ∧
      (hrana_rollback_transaction env tx st).2.streams tx = none) ∧
    (∀ (cookies : Cookies) (t k : Nat), cookies t = none →
      Cookies.remove cookies t k = cookies k) := by
  refine ⟨?_, ?_, ?_, ?_⟩
  · intro cl srv t cookies ht hnone
    have hreq : exec_request cl { sql := "ROLLBACK", args := [] } t cookies =
        (cl.url_for_queries,
         { baton := none,
           requests := [StreamRequest.execute (into_hrana { sql := "ROLLBACK", args := [] })] }) := by
      simp [exec_request, exec_cookie, ht, hnone]
    have htr := exec_inner_trace cl srv { sql := "ROLLBACK", args := [] } t cookies
    rcases hE : execute_inner cl srv { sql := "ROLLBACK", args := [] } t cookies with ⟨r, c1, t1⟩
    rw [hE] at htr
    cases r with
    | error e =>
        unfold rollback_transaction
        rw [hE]
        simp only at htr
        rw [htr, hreq]
        rfl
    | ok v =>
        unfold rollback_transaction
        rw [hE]
        simp only at htr
        simp [close_stream_for, htr, hreq]
  · intro cl srv t cookies m ht h hb
    have hmain : execute_inner cl srv { sql := "ROLLBACK", args := [] } t cookies =
        (Except.error (Err.ConnectionFailed "Stream closed: server returned empty baton"),
         cookies, [exec_request cl { sql := "ROLLBACK", args := [] } t cookies]) := by
      unfold execute_inner
      rw [h]
      simp [ht, hb]
    unfold rollback_transaction
    rw [hmain]
    rfl
  · intro env tx st e h1 h2 h3
    constructor <;>
      simp [hrana_rollback_transaction, stream_for_transaction, h1, h2, h3,
            drop_stream_for_transaction, Except.map]
  · intro cookies t k h
    unfold Cookies.remove
    by_cases hk : k = t
    · rw [if_pos hk, hk, h]
    · rw [if_neg hk]

/-- Witness for C5 amended: rolling back the never-used id 9 puts a fresh
ROLLBACK request on the wire, and removing 9 from the empty registry changes
nothing. -/
theorem rollback_unused_id_witness :
    (rollback_transaction clFix srvOkB 9 Cookies.empty).2.2.head? =
      some (clFix.url_for_queries,
        { baton := none,
          requests := [StreamRequest.execute (into_hrana { sql := "ROLLBACK", args := [] })] }) ∧
    Cookies.remove Cookies.empty 9 9 = Cookies.empty 9 := by
  refine ⟨rollback_unused_id_amended.1 clFix srvOkB 9 Cookies.empty (by decide) rfl, ?_⟩
  exact rollback_unused_id_amended.2.2.2 Cookies.empty 9 9 rfl

/-- C6 counterexample: a batch whose reply has an empty result list fails, but
with the Misuse kind, not the claimed ConnectionFailure kind. -/
theorem batch_shape_kind_cex :
    exceptOk (raw_batch clFix srvEmptyResults [{ sql := "CREATE TABLE t(x)", args := [] }]).1 =
      false ∧
    errIsConnectionFailed
      (raw_batch clFix srvEmptyResults [{ sql := "CREATE TABLE t(x)", args := [] }]).1 =
      false := by
  decide

/-- C6 amended: the batch goes out as one request holding the encoded steps
followed by one close step and no baton, and a reply whose result count is zero
or more than two makes raw_batch fail — with the Misuse error kind. -/
theorem batch_shape_misuse_amended :
    (∀ (cl : Client) (srv : Server) (stmts : List Statement),
      (raw_batch cl srv stmts).2 = [batch_request cl stmts] ∧
      (batch_request cl stmts).2.requests =
        [StreamRequest.batchReq (stmts.map fun s => ((none : Option Unit), into_hrana s)),
         StreamRequest.close] ∧
      (batch_request cl stmts).2.baton = none) ∧
    (∀ (cl : Client) (srv : Server) (stmts : List Statement) (m : ServerMsg),
      srv (batch_request cl stmts).1 (batch_request cl stmts).2 = Except.ok m →
      m.results.length = 0 ∨ m.results.length > 2 →
      ∃ s, (raw_batch cl srv stmts).1 = Except.error (Err.Misuse s)) := by
  constructor
  · intro cl srv stmts
    refine ⟨?_, rfl, rfl⟩
    unfold raw_batch
    cases h : srv (batch_request cl stmts).1 (batch_request cl stmts).2 with
    | error e => rfl
    | ok m => rfl
  · intro cl srv stmts m h hlen
    have hfin : ∃ s, batch_finish m.results = Except.error (Err.Misuse s) := by
      cases hr : m.results with
      | nil => exact ⟨"Unexpected empty response from server", rfl⟩
      | cons r0 rest =>
          have hgt : (r0 :: rest).length > 2 := by
            rcases hlen with h0 | h2
            · rw [hr] at h0
              simp at h0
            · rw [hr] at h2
              exact h2
          refine ⟨"Unexpected multiple responses from server", ?_⟩
          simp [batch_finish, hgt]
          intro hle
          simp at hgt
          omega
    obtain ⟨s, hs⟩ := hfin
    refine ⟨s, ?_⟩
    unfold raw_batch
    rw [h]
    exact hs

/-- Witness for C6 amended: a reply with three result entries makes the batch
fail with the Misuse kind. -/
theorem batch_shape_misuse_witness :
    ∃ s, (raw_batch clFix srvThreeResults [{ sql := "SELECT 1", args := [] }]).1 =
      Except.error (Err.Misuse s) :=
  batch_shape_misuse_amended.2 clFix srvThreeResults [{ sql := "SELECT 1", args := [] }]
    { baton := none, base_url := none,
      results := [Response.error "a", Response.error "b", Response.error "c"] }
    rfl (Or.inr (by decide))

/-- C7 counterexample: transaction 7 has a session and the transport fails the
COMMIT round trip; commit_transaction returns the error having sent only that
one request — no close (release) request was attempted. -/
theorem release_not_attempted_cex :
    exceptOk (commit_transaction clFix srvFail 7 cookiesFix).1 = false ∧
    (commit_transaction clFix srvFail 7 cookiesFix).2.2 =
      [exec_request clFix { sql := "COMMIT", args := [] } 7 cookiesFix] ∧
    (exec_request clFix { sql := "COMMIT", args := [] } 7 cookiesFix).2.requests ≠
      [StreamRequest.close] := by
  decide

/-- C7 amended: the server-side release (close) step is attempted exactly when
the COMMIT/ROLLBACK statement succeeded: on success the trace ends with the
close request and the operation returns Ok whatever the close send did (the
close helper swallows its outcome); on failure of the statement, for every
server and registry, the only request ever sent is the execute step — no sent
request contains a close step, so the release is never attempted then. -/
theorem release_only_on_success_amended :
    (∀ (cl : Client) (srv : Server) (t : Nat) (cookies : Cookies),
      exceptOk (execute_inner cl srv { sql := "COMMIT", args := [] } t cookies).1 = true →
      (commit_transaction cl srv t cookies).1 = Except.ok () ∧
      (commit_transaction cl srv t cookies).2.2 =
        (execute_inner cl srv { sql := "COMMIT", args := [] } t cookies).2.2 ++
          [close_request cl t
            (execute_inner cl srv { sql := "COMMIT", args := [] } t cookies).2.1]) ∧
    (∀ (cl : Client) (srv : Server) (t : Nat) (cookies : Cookies),
      exceptOk (execute_inner cl srv { sql := "ROLLBACK", args := [] } t cookies).1 = true →
      (rollback_transaction cl srv t cookies).1 = Except.ok () ∧
      (rollback_transaction cl srv t cookies).2.2 =
        (execute_inner cl srv { sql := "ROLLBACK", args := [] } t cookies).2.2 ++
          [close_request cl t
            (execute_inner cl srv { sql := "ROLLBACK", args := [] } t cookies).2.1]) ∧
    (∀ (cl : Client) (srv : Server) (t : Nat) (cookies : Cookies),
      exceptOk (execute_inner cl srv { sql := "COMMIT", args := [] } t cookies).1 = false →
      (commit_transaction cl srv t cookies).2.2 =
        [exec_request cl { sql := "COMMIT", args := [] } t cookies] ∧
      ∀ p ∈ (commit_transaction cl srv t cookies).2.2,
        StreamRequest.close ∉ p.2.requests) ∧
    (∀ (cl : Client) (srv : Server) (t : Nat) (cookies : Cookies),
      exceptOk (execute_inner cl srv { sql := "ROLLBACK", args := [] } t cookies).1 = false →
      (rollback_transaction cl srv t cookies).2.2 =
        [exec_request cl { sql := "ROLLBACK", args := [] } t cookies] ∧
      ∀ p ∈ (rollback_transaction cl srv t cookies).2.2,
        StreamRequest.close ∉ p.2.requests) ∧
    (∀ (cl : Client) (t : Nat) (cookies : Cookies),
      (close_stream_for cl t cookies).1 = Except.ok ()) := by
  refine ⟨?_, ?_, ?_, ?_, ?_⟩
  · intro cl srv t cookies hok
    rcases hE : execute_inner cl srv { sql := "COMMIT", args := [] } t cookies with ⟨r, c1, t1⟩
    rw [hE] at hok
    cases r with
    | error e => simp [exceptOk] at hok
    | ok v =>
        unfold commit_transaction
        rw [hE]
        exact ⟨rfl, by simp [close_stream_for]⟩
  · intro cl srv t cookies hok
    rcases hE : execute_inner cl srv { sql := "ROLLBACK", args := [] } t cookies with ⟨r, c1, t1⟩
    rw [hE] at hok
    cases r with
    | error e => simp [exceptOk] at hok
    | ok v =>
        unfold rollback_transaction
        rw [hE]
        exact ⟨rfl, by simp [close_stream_for]⟩
  · intro cl srv t cookies hfail
    have htr := exec_inner_trace cl srv { sql := "COMMIT", args := [] } t cookies
    rcases hE : execute_inner cl srv { sql := "COMMIT", args := [] } t cookies with ⟨r, c1, t1⟩
    rw [hE] at hfail htr
    cases r with
    | ok v => simp [exceptOk] at hfail
    | error e =>
        unfold commit_transaction
        rw [hE]
        simp only at htr
        refine ⟨htr, ?_⟩
        intro p hp
        rw [htr] at hp
        simp at hp
        rw [hp]
        simp [exec_request]
  · intro cl srv t cookies hfail
    have htr := exec_inner_trace cl srv { sql := "ROLLBACK", args := [] } t cookies
    rcases hE : execute_inner cl srv { sql := "ROLLBACK", args := [] } t cookies with ⟨r, c1, t1⟩
    rw [hE] at hfail htr
    cases r with
    | ok v => simp [exceptOk] at hfail
    | error e =>
        unfold rollback_transaction
        rw [hE]
        simp only at htr
        refine ⟨htr, ?_⟩
        intro p hp
        rw [htr] at hp
        simp at hp
        rw [hp]
        simp [exec_request]
  · intro cl t cookies
    rfl

/-- Witness for C7 amended: a successful COMMIT for transaction 7 returns Ok;
a COMMIT whose round trip fails sends no request containing a close step; and
the close helper itself returns Ok. -/
theorem release_only_on_success_witness :
    (commit_transaction clFix srvOkB 7 cookiesFix).1 = Except.ok () ∧
    (∀ p ∈ (commit_transaction clFix srvFail 7 cookiesFix).2.2,
      StreamRequest.close ∉ p.2.requests) ∧
    (close_stream_for clFix 7 cookiesFix).1 = Except.ok () := by
  refine ⟨(release_only_on_success_amended.1 clFix srvOkB 7 cookiesFix (by decide)).1, ?_, ?_⟩
  · exact (release_only_on_success_amended.2.2.1 clFix srvFail 7 cookiesFix (by decide)).2
  · exact release_only_on_success_amended.2.2.2.2 clFix 7 cookiesFix

end LibsqlClient
